import Mathlib

/-!
Shallow embedding of the authentication and authorization middleware of the
olivegardens backend (`src/config/cloudinary.js` security section,
`src/routes/auth.js`, `src/unnamed/part_000`), together with theorems settling
the specification claims about it.

Conventions:
* JS `Map` keyed by IP is modelled as an association list `AttemptStore`;
  `Map.get/set/delete` become `storeGet/storeSet/storeDelete`.
* `Date.now()` timestamps are `Nat` milliseconds, passed explicitly.
* Fallible JS (thrown errors) becomes `Except`; per-branch HTTP responses
  become outcome constructors, mapped to status codes by `statusOf`.
* External collaborators (`jwt.verify`, `User.findById`) are parameters of the
  middleware functions, so theorems can quantify over their behaviour.
-/

deriving instance DecidableEq for Except

namespace OliveGardens

/-- User roles as used across the middleware (`'user' | 'admin' | 'superadmin'`). -/
inductive Role where
  | user
  | admin
  | superadmin
deriving DecidableEq, Repr

/-- One entry of the failed-login tracker: `{ count, lastAttempt }`
(`src/config/cloudinary.js` line 82). -/
structure Attempt where
  count : Nat
  lastAttempt : Nat
deriving DecidableEq, Repr

/-- The `loginAttempts` JS `Map`, modelled as an association list from
IP string to its `Attempt` record. -/
def AttemptStore := List (String × Attempt)

instance : DecidableEq AttemptStore := by
  unfold AttemptStore
  infer_instance

/-- `loginAttempts.get(ip)`. -/
def storeGet (s : AttemptStore) (ip : String) : Option Attempt :=
  (s.find? (fun p => p.1 = ip)).map Prod.snd

/-- `loginAttempts.delete(ip)`. -/
def storeDelete (s : AttemptStore) (ip : String) : AttemptStore :=
  s.filter (fun p => p.1 ≠ ip)

/-- `loginAttempts.set(ip, a)` (replaces any existing binding for `ip`). -/
def storeSet (s : AttemptStore) (ip : String) (a : Attempt) : AttemptStore :=
  (ip, a) :: storeDelete s ip

/-- Lockout window: 1 hour in milliseconds (`3600000` in the source). -/
def lockoutWindow : Nat := 3600000

/-- Lockout threshold: 10 failed attempts. -/
def lockoutThreshold : Nat := 10

/-- `isIPBlocked(ip)` from `src/config/cloudinary.js` lines 59-78.
Returns the boolean answer together with the store after the call, because
the source *deletes* the record when the window has elapsed
(`loginAttempts.delete(ip)` at line 73). -/
def isIPBlocked (s : AttemptStore) (ip : String) (now : Nat) :
    Bool × AttemptStore :=
  match storeGet s ip with
  | none => (false, s)
  | some attempts =>
    let timeSinceLastAttempt := now - attempts.lastAttempt
    if attempts.count ≥ lockoutThreshold ∧ timeSinceLastAttempt < lockoutWindow then
      (true, s)
    else if timeSinceLastAttempt > lockoutWindow then
      (false, storeDelete s ip)
    else
      (false, s)

/-- `recordFailedLogin(ip)` from `src/config/cloudinary.js` lines 81-88:
read the record (default `{count: 0, lastAttempt: 0}`), increment the count,
stamp `Date.now()`, write it back. -/
def recordFailedLogin (s : AttemptStore) (ip : String) (now : Nat) :
    AttemptStore :=
  let attempts := (storeGet s ip).getD ⟨0, 0⟩
  storeSet s ip ⟨attempts.count + 1, now⟩

/-- `resetFailedLogins(ip)` from `src/config/cloudinary.js` lines 91-93. -/
def resetFailedLogins (s : AttemptStore) (ip : String) : AttemptStore :=
  storeDelete s ip

/-- `n` consecutive invocations of `recordFailedLogin` for `ip`, each stamped
with the corresponding time from `ts` (head applied first). Models a sequence
of calls: each JS invocation is synchronous (no `await` inside the function
body), so under the event loop each runs to completion before the next. -/
def recordMany (s : AttemptStore) (ip : String) : List Nat → AttemptStore
  | [] => s
  | t :: ts => recordMany (recordFailedLogin s ip t) ip ts

/-- Error thrown by `validateJWTSecret`: the only throwing branch is the
absent-secret one (`throw new Error('JWT_SECRET is required ...')`). -/
inductive ConfigError where
  | missingSecret
deriving DecidableEq, Repr

/-- `validateJWTSecret()` from `src/config/cloudinary.js` lines 96-109.
Throws when `process.env.JWT_SECRET` is absent; when the secret is shorter
than 32 characters it only logs a warning (`console.warn`) and still returns
the secret. -/
def validateJWTSecret (envSecret : Option String) : Except ConfigError String :=
  match envSecret with
  | none => .error .missingSecret
  | some secret => .ok secret

/-- The `JWT_SECRET` constant of `src/routes/auth.js` line 7:
`process.env.JWT_SECRET || 'your-secret-key-change-in-production'`. -/
def authRouteJWTSecret (envSecret : Option String) : String :=
  envSecret.getD "your-secret-key-change-in-production"

/-- The distinct failures of `jwt.verify`, as dispatched on
`jwtError.name` by the middleware (`TokenExpiredError`, `JsonWebTokenError`,
`NotBeforeError`, anything else). -/
inductive JwtError where
  | expired
  | invalid
  | notBefore
  | other
deriving DecidableEq, Repr

/-- The decoded JWT payload fields the middleware reads: it supports both
`decoded.id` and `decoded.userId` (`const userId = decoded.id || decoded.userId`),
plus the role snapshot used by the route-local gate in `src/routes/auth.js`. -/
structure Payload where
  id : Option String
  userId : Option String
  role : Role
deriving DecidableEq, Repr

/-- `decoded.id || decoded.userId`. -/
def Payload.resolvedUserId (p : Payload) : Option String :=
  match p.id with
  | some i => some i
  | none => p.userId

/-- The identity record fields the middleware consults. `isActive` and
`emailVerified` are `Option Bool` because the JS checks are strict
(`user.isActive === false`): an absent field passes the check. -/
structure User where
  id : String
  email : String
  role : Role
  isActive : Option Bool
  emailVerified : Option Bool
deriving DecidableEq, Repr

/-- The request fields the middleware reads. -/
structure Request where
  authHeader : Option String
  cookieToken : Option String
  ip : String
deriving DecidableEq, Repr

/-- JS `String.prototype.startsWith`, written over character lists so that it
is kernel-reducible on concrete inputs. -/
def charsStartWith : List Char → List Char → Bool
  | _, [] => true
  | [], _ :: _ => false
  | c :: cs, p :: ps => c = p && charsStartWith cs ps

/-- JS `s.startsWith(p)`. -/
def jsStartsWith (s p : String) : Bool :=
  charsStartWith s.toList p.toList

/-- Helper for `jsSplitOnSpace`: accumulates the current piece (reversed). -/
def splitOnSpaceAux : List Char → List Char → List String
  | [], acc => [String.mk acc.reverse]
  | c :: cs, acc =>
    if c = ' ' then String.mk acc.reverse :: splitOnSpaceAux cs []
    else splitOnSpaceAux cs (c :: acc)

/-- JS `s.split(' ')`: split on every single space, keeping empty pieces. -/
def jsSplitOnSpace (s : String) : List String :=
  splitOnSpaceAux s.toList []

/-- Token extraction of `src/config/cloudinary.js` lines 127-136: take the
word after `Bearer ` from the Authorization header when that header starts
with `Bearer`; otherwise fall back to the `token` cookie. A `Bearer` header
with no second word yields no token (JS `split(' ')[1]` is `undefined`). -/
def extractToken (authHeader cookieToken : Option String) : Option String :=
  match authHeader with
  | some h =>
    if jsStartsWith h "Bearer" then (jsSplitOnSpace h).get? 1
    else cookieToken
  | none => cookieToken

/-- Every exit of `authenticateToken` (`src/config/cloudinary.js` 114-269),
one constructor per distinct response the source can write, plus `success`
for the `next()` path. `genericAuthError` is the catch-all 401 of lines
253-259: it is reached by an unnamed error thrown anywhere in the inner
`try` — a missing `JWT_SECRET`, an unclassified `jwt.verify` failure, or a
failing `user.save()` all land there. -/
inductive AuthOutcome where
  | blocked
  | noToken
  | revoked
  | missingUserId
  | userNotFound
  | inactive
  | unverified
  | expired
  | invalidToken
  | notYetValid
  | genericAuthError
  | success (u : User) (token : String)
deriving DecidableEq, Repr

/-- HTTP status written by each exit of `authenticateToken`; `success` calls
`next()` and writes nothing, recorded here as 200. -/
def statusOf : AuthOutcome → Nat
  | .blocked => 429
  | .noToken => 401
  | .revoked => 401
  | .missingUserId => 401
  | .userNotFound => 401
  | .inactive => 403
  | .unverified => 403
  | .expired => 401
  | .invalidToken => 401
  | .notYetValid => 401
  | .genericAuthError => 401
  | .success _ _ => 200

/-- Whether the exit invokes the downstream handler. -/
def callsNext : AuthOutcome → Bool
  | .success _ _ => true
  | _ => false

/-- `authenticateToken` from `src/config/cloudinary.js` lines 114-269.
External collaborators are parameters: `verify token secret` models
`jwt.verify`, `findById` models `User.findById(..).select(..)`, and `saveOk`
models whether `await user.save({validateBeforeSave: false})` (line 212)
succeeds — the save is awaited inside the inner `try`, so its failure is
caught at line 222 and answered with the generic 401. The returned store is
the `loginAttempts` map after the call (`isIPBlocked` may delete an entry). -/
def authenticateToken
    (verify : String → String → Except JwtError Payload)
    (findById : String → Option User)
    (envSecret : Option String)
    (requireEmailVerification : Bool)
    (blacklist : List String)
    (attempts : AttemptStore)
    (req : Request)
    (now : Nat)
    (saveOk : Bool) :
    AuthOutcome × AttemptStore :=
  let ipCheck := isIPBlocked attempts req.ip now
  let attempts2 := ipCheck.2
  if ipCheck.1 then (.blocked, attempts2)
  else
    match extractToken req.authHeader req.cookieToken with
    | none => (.noToken, attempts2)
    | some token =>
      if token ∈ blacklist then (.revoked, attempts2)
      else
        match validateJWTSecret envSecret with
        | .error _ => (.genericAuthError, attempts2)
        | .ok secret =>
          match verify token secret with
          | .error .expired => (.expired, attempts2)
          | .error .invalid => (.invalidToken, attempts2)
          | .error .notBefore => (.notYetValid, attempts2)
          | .error .other => (.genericAuthError, attempts2)
          | .ok payload =>
            match payload.resolvedUserId with
            | none => (.missingUserId, attempts2)
            | some userId =>
              match findById userId with
              | none => (.userNotFound, attempts2)
              | some user =>
                if user.isActive = some false then (.inactive, attempts2)
                else if user.emailVerified = some false ∧ requireEmailVerification then
                  (.unverified, attempts2)
                else if saveOk then (.success user token, attempts2)
                else (.genericAuthError, attempts2)

/-- Exit of a role-gate middleware: 401 when `req.user` is unset, 403 when
the role check fails, `next` otherwise. -/
inductive GateResult where
  | noAuth
  | forbidden
  | next
deriving DecidableEq, Repr

/-- HTTP status of a gate exit (`next` writes nothing, recorded as 200). -/
def gateStatus : GateResult → Nat
  | .noAuth => 401
  | .forbidden => 403
  | .next => 200

/-- `isAdmin` from `src/config/cloudinary.js` lines 274-305: requires
`req.user`, passes when `role === 'admin' || role === 'superadmin'`. -/
def isAdmin (reqUser : Option User) : GateResult :=
  match reqUser with
  | none => .noAuth
  | some user =>
    if user.role = .admin ∨ user.role = .superadmin then .next else .forbidden

/-- `isSuperAdmin` from `src/config/cloudinary.js` lines 310-338: passes only
when `role === 'superadmin'`. -/
def isSuperAdmin (reqUser : Option User) : GateResult :=
  match reqUser with
  | none => .noAuth
  | some user =>
    if user.role = .superadmin then .next else .forbidden

/-- `authorize(...roles)` from `src/config/cloudinary.js` lines 343-373:
passes exactly when `roles.includes(req.user.role)` — no implicit hierarchy. -/
def authorize (roles : List Role) (reqUser : Option User) : GateResult :=
  match reqUser with
  | none => .noAuth
  | some user =>
    if user.role ∈ roles then .next else .forbidden

/-- The route-local `isAdmin` of `src/routes/auth.js` lines 196-201. There
`req.user` is the decoded JWT payload and the check is
`req.user.role !== 'admin'` — `superadmin` is rejected with 403. -/
def routeIsAdmin (reqUser : Payload) : GateResult :=
  if reqUser.role ≠ .admin then .forbidden else .next

/-- Result of a middleware that may either write a response or call `next()`
with an optionally attached `req.user`. -/
structure MwStep where
  response : Option Nat
  reqUser : Option User
deriving DecidableEq, Repr

/-- `optionalUser` from `src/config/cloudinary.js` lines 378-404. Every
control path of the source ends in `next()` (both `catch` blocks continue),
so `response` is `none` on every branch; `req.user` is set only when a
non-blacklisted token is present, the secret check and `jwt.verify` succeed,
and then it is set to whatever `User.findById(userId).select('-password')`
returns — with no `isActive` or `emailVerified` check. A payload with no
`id`/`userId` makes the source call `findById(undefined)`, modelled as
attaching nothing. -/
def optionalUser
    (verify : String → String → Except JwtError Payload)
    (findById : String → Option User)
    (envSecret : Option String)
    (blacklist : List String)
    (req : Request) :
    MwStep :=
  match extractToken req.authHeader req.cookieToken with
  | none => ⟨none, none⟩
  | some token =>
    if token ∈ blacklist then ⟨none, none⟩
    else
      match validateJWTSecret envSecret with
      | .error _ => ⟨none, none⟩
      | .ok secret =>
        match verify token secret with
        | .error _ => ⟨none, none⟩
        | .ok payload =>
          match payload.resolvedUserId with
          | none => ⟨none, none⟩
          | some userId => ⟨none, findById userId⟩

/-- `logout` from `src/config/cloudinary.js` lines 409-434: when the request
carries `req.token` it is added to the blacklist (`Set.add`, modelled by
consing when absent); the response is 200 either way. -/
def logout (blacklist : List String) (reqToken : Option String) :
    List String :=
  match reqToken with
  | none => blacklist
  | some token => if token ∈ blacklist then blacklist else token :: blacklist

/-- Exits of the `authenticateToken` variant in `src/unnamed/part_000`
lines 7-112. Differences from the main variant: no IP-block check, no
blacklist, no cookie fallback, a missing `JWT_SECRET` answers 500, there is
no email-verification check and no `lastActive` save — and a deactivated
account is answered with **401** (lines 61-67), not 403. -/
inductive AuthOutcomeV0 where
  | noToken
  | configError
  | expired
  | invalidToken
  | genericAuthError
  | userNotFound
  | inactive
  | success (u : User)
deriving DecidableEq, Repr

/-- HTTP status of each `part_000` exit; its deactivated-account branch
writes `res.status(401)`. -/
def statusV0 : AuthOutcomeV0 → Nat
  | .noToken => 401
  | .configError => 500
  | .expired => 401
  | .invalidToken => 401
  | .genericAuthError => 401
  | .userNotFound => 401
  | .inactive => 401
  | .success _ => 200

/-- The `authenticateToken` of `src/unnamed/part_000` lines 7-112. Token
extraction reads only the Authorization header. A payload with neither `id`
nor `userId` leads to `User.findById(undefined)`, i.e. no user found.
`NotBeforeError` has no branch of its own there and falls through to the
generic 401. -/
def authenticateTokenV0
    (verify : String → String → Except JwtError Payload)
    (findById : String → Option User)
    (envSecret : Option String)
    (authHeader : Option String) :
    AuthOutcomeV0 :=
  match extractToken authHeader none with
  | none => .noToken
  | some token =>
    match envSecret with
    | none => .configError
    | some secret =>
      match verify token secret with
      | .error .expired => .expired
      | .error .invalid => .invalidToken
      | .error .notBefore => .genericAuthError
      | .error .other => .genericAuthError
      | .ok payload =>
        match payload.resolvedUserId with
        | none => .userNotFound
        | some userId =>
          match findById userId with
          | none => .userNotFound
          | some user =>
            if user.isActive = some false then .inactive
            else .success user

/-- Fields of the identity record the login route reads; `password` stands
for the stored credential checked by `user.comparePassword`. -/
structure LoginUser where
  id : String
  email : String
  password : String
  role : Role
  isActive : Bool
deriving DecidableEq, Repr

/-- Exits of `router.post('/login')`. -/
inductive LoginResult where
  | invalidCredentials
  | deactivated
  | success (u : LoginUser)
deriving DecidableEq, Repr

/-- HTTP status of each login exit. -/
def loginStatus : LoginResult → Nat
  | .invalidCredentials => 401
  | .deactivated => 403
  | .success _ => 200

/-- The login handler of `src/routes/auth.js` lines 111-162. `findByEmail`
models `User.findOne({email})` and `passwordMatches` models
`user.comparePassword(password)`. Note what the handler does *not* take:
it never consults `isIPBlocked`, never calls `recordFailedLogin` or
`resetFailedLogins`, and does not read or write the `loginAttempts` store at
all — those helpers are exported from `src/config/cloudinary.js`
("for use in auth routes") but this route does not use them. -/
def login
    (findByEmail : String → Option LoginUser)
    (passwordMatches : LoginUser → String → Bool)
    (email password : String) :
    LoginResult :=
  match findByEmail email with
  | none => .invalidCredentials
  | some user =>
    if ¬ passwordMatches user password then .invalidCredentials
    else if ¬ user.isActive then .deactivated
    else .success user

/-! ### Basic store lemmas -/

/-- Reading back the key just written by `storeSet`. -/
theorem storeGet_storeSet_self (s : AttemptStore) (ip : String) (a : Attempt) :
    storeGet (storeSet s ip a) ip = some a := by
  simp [storeGet, storeSet, List.find?]

/-- `recordFailedLogin` leaves the key holding the incremented count and the
new timestamp. -/
theorem storeGet_recordFailedLogin (s : AttemptStore) (ip : String) (now : Nat) :
    storeGet (recordFailedLogin s ip now) ip
      = some ⟨((storeGet s ip).getD ⟨0, 0⟩).count + 1, now⟩ := by
  simp [recordFailedLogin, storeGet_storeSet_self]

/-! ### C1 — signing-secret validation -/

/-- C1 counterexample: the claim says issuance/verification fails with a
`ConfigurationError` when the configured secret is shorter than 32 bytes.
It does not: `validateJWTSecret` accepts the 16-character secret
`"0123456789abcdef"` (the source only logs a warning for short secrets). -/
theorem short_secret_passes_validation :
    ("0123456789abcdef" : String).length < 32 ∧
    validateJWTSecret (some "0123456789abcdef") = Except.ok "0123456789abcdef" := by
  constructor
  · decide
  · rfl

/-- C1 (amended): `validateJWTSecret` fails only when no secret is configured
at all; any configured secret — however short — passes validation. Moreover
the token-issuing routes (`src/routes/auth.js`) never consult
`validateJWTSecret`: they substitute the hardcoded default
`'your-secret-key-change-in-production'` when no secret is configured, so
issuance never fails. The check runs inside the per-request middleware, not
at service start. -/
theorem secret_validation_fails_only_when_absent :
    validateJWTSecret none = Except.error ConfigError.missingSecret ∧
    (∀ s : String, validateJWTSecret (some s) = Except.ok s) ∧
    authRouteJWTSecret none = "your-secret-key-change-in-production" ∧
    (∀ s : String, authRouteJWTSecret (some s) = s) :=
  ⟨rfl, fun _ => rfl, rfl, fun _ => rfl⟩

/-! ### C4 — role gates -/

/-- C4 counterexample: the claim says every admin-role gate
(`requireAdmin` / `requireRole({admin})`) grants access to a `superadmin`
identity. Two of the gates in the source do not: the route-local `isAdmin`
of `src/routes/auth.js` (which tests `role !== 'admin'`) answers 403 to a
superadmin, and so does `authorize('admin')`, which has no role hierarchy. -/
theorem admin_gate_variants_reject_superadmin :
    routeIsAdmin ⟨some "u1", none, Role.superadmin⟩ = GateResult.forbidden ∧
    gateStatus (routeIsAdmin ⟨some "u1", none, Role.superadmin⟩) = 403 ∧
    authorize [Role.admin] (some ⟨"u1", "e", Role.superadmin, none, none⟩)
      = GateResult.forbidden := by
  refine ⟨?_, ?_, ?_⟩ <;> decide

/-- C4 (amended): the main gates in `src/config/cloudinary.js` implement the
hierarchy — `isAdmin` passes exactly the roles `admin` and `superadmin` and
answers 403 to `user`; `isSuperAdmin` passes only `superadmin` — but the
route-local `isAdmin` of `src/routes/auth.js` passes only `admin` (rejecting
`superadmin` with 403), and `authorize(roles)` passes exactly the listed
roles, with no implicit hierarchy. -/
theorem role_gate_hierarchy :
    (∀ u : User,
      isAdmin (some u) = GateResult.next ↔ u.role = Role.admin ∨ u.role = Role.superadmin) ∧
    (∀ u : User, u.role = Role.user → isAdmin (some u) = GateResult.forbidden) ∧
    (∀ u : User, isSuperAdmin (some u) = GateResult.next ↔ u.role = Role.superadmin) ∧
    (∀ u : User, u.role ≠ Role.superadmin → isSuperAdmin (some u) = GateResult.forbidden) ∧
    (∀ p : Payload, routeIsAdmin p = GateResult.next ↔ p.role = Role.admin) ∧
    (∀ (roles : List Role) (u : User),
      authorize roles (some u) = GateResult.next ↔ u.role ∈ roles) := by
  refine ⟨?_, ?_, ?_, ?_, ?_, ?_⟩
  · intro u
    simp only [isAdmin]
    split <;> simp_all
  · intro u h
    simp [isAdmin, h]
  · intro u
    simp only [isSuperAdmin]
    split <;> simp_all
  · intro u h
    simp [isSuperAdmin, h]
  · intro p
    simp only [routeIsAdmin]
    split <;> simp_all
  · intro roles u
    simp only [authorize]
    split <;> simp_all

/-- Witness for `role_gate_hierarchy` at concrete identities. -/
theorem role_gate_hierarchy_witness :
    isAdmin (some ⟨"u1", "e", Role.user, none, none⟩) = GateResult.forbidden ∧
    isSuperAdmin (some ⟨"u2", "e2", Role.admin, none, none⟩) = GateResult.forbidden :=
  ⟨role_gate_hierarchy.2.1 ⟨"u1", "e", Role.user, none, none⟩ rfl,
   role_gate_hierarchy.2.2.2.1 ⟨"u2", "e2", Role.admin, none, none⟩ (by decide)⟩

/-! ### C7 — is the block check a pure read? -/

/-- C7 counterexample: the claim says `isBlocked` never changes the store.
It does: on an entry whose last failure is more than the window in the past
(`lastAttempt = 0`, queried at `now = 4000000 > 3600000`), `isIPBlocked`
deletes the entry. -/
theorem isIPBlocked_deletes_expired_entry :
    (isIPBlocked [("1.2.3.4", (⟨10, 0⟩ : Attempt))] "1.2.3.4" 4000000).2
        ≠ [("1.2.3.4", (⟨10, 0⟩ : Attempt))] ∧
    storeGet [("1.2.3.4", (⟨10, 0⟩ : Attempt))] "1.2.3.4" = some ⟨10, 0⟩ ∧
    storeGet (isIPBlocked [("1.2.3.4", (⟨10, 0⟩ : Attempt))] "1.2.3.4" 4000000).2
      "1.2.3.4" = none := by
  refine ⟨?_, ?_, ?_⟩ <;> decide

/-- C7 (amended): `isIPBlocked` leaves the store unchanged whenever the
queried key is absent or its elapsed time since the last failure is at most
the lockout window; when the elapsed time exceeds the window it deletes that
key's record (lazy expiry) and returns `false`. -/
theorem isIPBlocked_frame_condition (s : AttemptStore) (ip : String) (now : Nat) :
    ((∀ a : Attempt, storeGet s ip = some a → now - a.lastAttempt ≤ lockoutWindow) →
      (isIPBlocked s ip now).2 = s) ∧
    (∀ a : Attempt, storeGet s ip = some a → lockoutWindow < now - a.lastAttempt →
      (isIPBlocked s ip now).1 = false ∧ (isIPBlocked s ip now).2 = storeDelete s ip) := by
  constructor
  · intro hle
    cases h : storeGet s ip with
    | none => simp [isIPBlocked, h]
    | some a =>
      have ha := hle a h
      simp only [isIPBlocked, h]
      split_ifs with h1 h2
      · rfl
      · exact absurd h2 (by unfold lockoutWindow at ha ⊢; omega)
      · rfl
  · intro a h hgt
    have h1 : ¬ (a.count ≥ lockoutThreshold ∧ now - a.lastAttempt < lockoutWindow) := by
      unfold lockoutWindow at hgt ⊢
      omega
    have h2 : now - a.lastAttempt > lockoutWindow := hgt
    constructor <;> simp [isIPBlocked, h, h1, h2]

/-- Witness for `isIPBlocked_frame_condition`: an in-window entry is left
untouched, and an expired one is deleted. -/
theorem isIPBlocked_frame_condition_witness :
    (isIPBlocked [("1.2.3.4", (⟨3, 100⟩ : Attempt))] "1.2.3.4" 200).2
      = [("1.2.3.4", (⟨3, 100⟩ : Attempt))] ∧
    (isIPBlocked [("5.6.7.8", (⟨3, 0⟩ : Attempt))] "5.6.7.8" 4000000).2
      = storeDelete [("5.6.7.8", (⟨3, 0⟩ : Attempt))] "5.6.7.8" := by
  constructor
  · refine (isIPBlocked_frame_condition _ "1.2.3.4" 200).1 ?_
    intro a ha
    have h2 : some (⟨3, 100⟩ : Attempt) = some a := ha
    rw [← Option.some.inj h2]
    decide
  · refine ((isIPBlocked_frame_condition _ "5.6.7.8" 4000000).2 ⟨3, 0⟩ ?_ ?_).2
    · rfl
    · decide

/-! ### C9 — no lost updates on the failure counter -/

/-- C9: a sequence of `recordFailedLogin` calls for one key adds exactly one
to the stored count per call — the final count is the initial count plus the
number of calls, with no lost updates. In the source `recordFailedLogin` is
a synchronous function (its body contains no `await`), so under the
event-loop execution model each invocation runs to completion before any
other request touches the map: any interleaving of N "simultaneous" calls
is one of these sequential compositions. -/
theorem recordFailedLogin_no_lost_updates (ip : String) (ts : List Nat) :
    ∀ s : AttemptStore,
      ((storeGet (recordMany s ip ts) ip).getD ⟨0, 0⟩).count
        = ((storeGet s ip).getD ⟨0, 0⟩).count + ts.length := by
  induction ts with
  | nil => intro s; simp [recordMany]
  | cons t ts ih =>
    intro s
    simp only [recordMany]
    rw [ih (recordFailedLogin s ip t), storeGet_recordFailedLogin]
    simp only [Option.getD_some, List.length_cons]
    omega

/-! ### C6 — threshold blocks, elapsed window clears -/

/-- After a run of failures ending with one stamped at time `t`, the key
holds count `initial + length + 1` and timestamp `t`. -/
theorem storeGet_recordMany_last (ip : String) :
    ∀ (ts : List Nat) (s : AttemptStore) (t : Nat),
      storeGet (recordMany s ip (ts ++ [t])) ip
        = some ⟨((storeGet s ip).getD ⟨0, 0⟩).count + ts.length + 1, t⟩ := by
  intro ts
  induction ts with
  | nil =>
    intro s t
    simp [recordMany, storeGet_recordFailedLogin]
  | cons u ts ih =>
    intro s t
    rw [List.cons_append]
    simp only [recordMany]
    rw [ih (recordFailedLogin s ip u) t, storeGet_recordFailedLogin]
    simp only [Option.getD_some, List.length_cons]
    congr 2
    omega

/-- C6: starting from a key with no record, ten `recordFailedLogin` calls at
time `t` make `isIPBlocked` answer `true` at any `now` within the lockout
window of `t`, and `false` at any `now2` whose distance from `t` exceeds the
window (the `Blocked -> Clear` transition, evaluated lazily on the check). -/
theorem ten_failures_block_then_window_clears
    (s : AttemptStore) (ip : String) (t now now2 : Nat)
    (h0 : storeGet s ip = none)
    (hin : now - t < lockoutWindow)
    (hout : lockoutWindow < now2 - t) :
    (isIPBlocked (recordMany s ip (List.replicate 10 t)) ip now).1 = true ∧
    (isIPBlocked (recordMany s ip (List.replicate 10 t)) ip now2).1 = false := by
  have h10 : List.replicate 10 t = List.replicate 9 t ++ [t] := by
    rw [← List.replicate_succ']
  have hg := storeGet_recordMany_last ip (List.replicate 9 t) s t
  rw [h0] at hg
  simp only [Option.getD_none, List.length_replicate] at hg
  rw [h10]
  have hc : ((⟨0 + 9 + 1, t⟩ : Attempt).count ≥ lockoutThreshold) := by
    simp [lockoutThreshold]
  constructor
  · simp only [isIPBlocked, hg]
    split_ifs with h1 h2
    · rfl
    · exact absurd ⟨hc, hin⟩ h1
    · exact absurd ⟨hc, hin⟩ h1
  · simp only [isIPBlocked, hg]
    split_ifs with h1
    · exact absurd h1.2 (by unfold lockoutWindow at hout ⊢; omega)
    · rfl

/-- Witness for `ten_failures_block_then_window_clears`: from the empty map,
ten failures at time 0 block a check at 5ms and clear one at 7200000ms. -/
theorem ten_failures_block_then_window_clears_witness :
    (isIPBlocked (recordMany [] "1.2.3.4" (List.replicate 10 0)) "1.2.3.4" 5).1 = true ∧
    (isIPBlocked (recordMany [] "1.2.3.4" (List.replicate 10 0)) "1.2.3.4" 7200000).1 = false :=
  ten_failures_block_then_window_clears [] "1.2.3.4" 0 5 7200000 rfl (by decide) (by decide)

/-! ### C2 — the login route and the lockout state -/

/-- C2: the claim says a source with ≥ 10 failures in the window gets `429`
from login regardless of credential correctness. The login handler of
`src/routes/auth.js` takes no notice of the `loginAttempts` store: with the
store showing that IP blocked (`isIPBlocked` answers `true`), a login with
correct credentials still answers `200`, and a wrong-password login answers
`401` without recording anything (the handler never calls
`recordFailedLogin`, so ten wrong attempts leave the store untouched and the
eleventh succeeds). -/
theorem login_ignores_lockout_state :
    (isIPBlocked [("9.9.9.9", (⟨10, 990⟩ : Attempt))] "9.9.9.9" 1000).1 = true ∧
    login
      (fun e => if e = "a@b.c" then some ⟨"u1", "a@b.c", "pw", Role.user, true⟩ else none)
      (fun u p => u.password = p) "a@b.c" "pw"
      = LoginResult.success ⟨"u1", "a@b.c", "pw", Role.user, true⟩ ∧
    loginStatus (login
      (fun e => if e = "a@b.c" then some ⟨"u1", "a@b.c", "pw", Role.user, true⟩ else none)
      (fun u p => u.password = p) "a@b.c" "pw") = 200 ∧
    loginStatus (login
      (fun e => if e = "a@b.c" then some ⟨"u1", "a@b.c", "pw", Role.user, true⟩ else none)
      (fun u p => u.password = p) "a@b.c" "wrong") = 401 := by
  refine ⟨?_, ?_, ?_, ?_⟩ <;> decide

/-! ### C3 — revocation beats a valid signature -/

/-- C3: when the extracted token is on the blacklist (and the source IP is
not blocked), `authenticateToken` answers the 401 `revoked` response — for
*every* verification function `verify`, in particular one that would report
the token valid: the blacklist is consulted before `jwt.verify` is ever
called, so the outcome does not depend on it. -/
theorem blacklisted_token_rejected_before_verification
    (verify : String → String → Except JwtError Payload)
    (findById : String → Option User)
    (envSecret : Option String) (requireEmailVerification : Bool)
    (blacklist : List String) (attempts : AttemptStore)
    (req : Request) (now : Nat) (saveOk : Bool) (token : String)
    (hextract : extractToken req.authHeader req.cookieToken = some token)
    (hbl : token ∈ blacklist)
    (hnb : (isIPBlocked attempts req.ip now).1 = false) :
    (authenticateToken verify findById envSecret requireEmailVerification
        blacklist attempts req now saveOk).1 = AuthOutcome.revoked ∧
    statusOf AuthOutcome.revoked = 401 ∧
    callsNext AuthOutcome.revoked = false := by
  refine ⟨?_, rfl, rfl⟩
  simp only [authenticateToken, hnb, hextract]
  simp [hbl]

/-- Witness for `blacklisted_token_rejected_before_verification`: a
blacklisted token whose signature would verify fine is answered `revoked`. -/
theorem blacklisted_token_rejected_witness :
    (authenticateToken
      (fun _ _ => Except.ok ⟨some "u1", none, Role.user⟩)
      (fun _ => some ⟨"u1", "e@x", Role.user, some true, some true⟩)
      (some "secret") false ["tok"] []
      ⟨some "Bearer tok", none, "9.9.9.9"⟩ 0 true).1 = AuthOutcome.revoked :=
  (blacklisted_token_rejected_before_verification
    (fun _ _ => Except.ok ⟨some "u1", none, Role.user⟩)
    (fun _ => some ⟨"u1", "e@x", Role.user, some true, some true⟩)
    (some "secret") false ["tok"] []
    ⟨some "Bearer tok", none, "9.9.9.9"⟩ 0 true "tok"
    (by decide) (by decide) (by decide)).1

/-! ### C5 — deactivated account: which failure class? -/

/-- C5 counterexample: the claim says a deactivated account is *never*
answered with the 401 class. The `authenticateToken` variant in
`src/unnamed/part_000` (named in the claim's sources) answers exactly 401
(`res.status(401)` at its lines 61-67) when `user.isActive === false`. -/
theorem part000_deactivated_account_gets_401 :
    authenticateTokenV0
      (fun t s => if t = "tok" ∧ s = "secret" then Except.ok ⟨some "u1", none, Role.user⟩
        else Except.error JwtError.invalid)
      (fun uid => if uid = "u1" then some ⟨"u1", "e@x", Role.user, some false, some true⟩
        else none)
      (some "secret") (some "Bearer tok") = AuthOutcomeV0.inactive ∧
    statusV0 AuthOutcomeV0.inactive = 401 := by
  constructor <;> decide

/-- C5 (amended): in the main middleware (`src/config/cloudinary.js`), a
request whose token verifies and resolves to an identity with
`isActive = false` is answered 403 with the dedicated `inactive` outcome
(body `accountStatus: 'inactive'`), distinct from the verification 403 —
but the variant in `src/unnamed/part_000` answers the same situation
with 401. -/
theorem deactivated_account_status
    (verify : String → String → Except JwtError Payload)
    (findById : String → Option User)
    (secret : String) (requireEmailVerification : Bool)
    (blacklist : List String) (attempts : AttemptStore)
    (req : Request) (now : Nat) (saveOk : Bool)
    (token : String) (payload : Payload) (userId : String) (user : User)
    (hnb : (isIPBlocked attempts req.ip now).1 = false)
    (hextract : extractToken req.authHeader req.cookieToken = some token)
    (hbl : token ∉ blacklist)
    (hv : verify token secret = Except.ok payload)
    (hid : payload.resolvedUserId = some userId)
    (hu : findById userId = some user)
    (hia : user.isActive = some false) :
    (authenticateToken verify findById (some secret) requireEmailVerification
        blacklist attempts req now saveOk).1 = AuthOutcome.inactive ∧
    statusOf AuthOutcome.inactive = 403 ∧
    AuthOutcome.inactive ≠ AuthOutcome.unverified ∧
    (∀ (verify0 : String → String → Except JwtError Payload)
       (findById0 : String → Option User) (secret0 : String)
       (hdr : Option String) (token0 : String) (payload0 : Payload)
       (uid0 : String) (u0 : User),
       extractToken hdr none = some token0 →
       verify0 token0 secret0 = Except.ok payload0 →
       payload0.resolvedUserId = some uid0 →
       findById0 uid0 = some u0 →
       u0.isActive = some false →
       authenticateTokenV0 verify0 findById0 (some secret0) hdr = AuthOutcomeV0.inactive) ∧
    statusV0 AuthOutcomeV0.inactive = 401 := by
  refine ⟨?_, rfl, by decide, ?_, rfl⟩
  · simp only [authenticateToken, hnb, hextract]
    simp [hbl, validateJWTSecret, hv, hid, hu, hia]
  · intro v0 f0 s0 hdr t0 p0 uid0 u0 he0 hv0 hid0 hu0 hia0
    simp only [authenticateTokenV0, he0]
    simp [hv0, hid0, hu0, hia0]

/-- Witness for `deactivated_account_status` at a concrete request. -/
theorem deactivated_account_status_witness :
    (authenticateToken
      (fun t s => if t = "tok" ∧ s = "secret" then Except.ok ⟨some "u1", none, Role.user⟩
        else Except.error JwtError.invalid)
      (fun uid => if uid = "u1" then some ⟨"u1", "e@x", Role.user, some false, some true⟩
        else none)
      (some "secret") false [] [] ⟨some "Bearer tok", none, "1.2.3.4"⟩ 0 true).1
      = AuthOutcome.inactive :=
  (deactivated_account_status
    (fun t s => if t = "tok" ∧ s = "secret" then Except.ok ⟨some "u1", none, Role.user⟩
      else Except.error JwtError.invalid)
    (fun uid => if uid = "u1" then some ⟨"u1", "e@x", Role.user, some false, some true⟩
      else none)
    "secret" false [] [] ⟨some "Bearer tok", none, "1.2.3.4"⟩ 0 true
    "tok" ⟨some "u1", none, Role.user⟩ "u1" ⟨"u1", "e@x", Role.user, some false, some true⟩
    (by decide) (by decide) (by decide) (by decide) (by decide) (by decide) (by decide)).1

/-! ### C8 — is the last-active update best-effort? -/

/-- C8 counterexample: the claim says a failure to persist the last-active
update never fails the request. With every stage succeeding but the
`user.save` failing (`saveOk = false`), `authenticateToken` answers the
generic 401 instead of invoking the handler: the awaited save sits on the
request path and its failure fails the request. -/
theorem save_failure_fails_request :
    (authenticateToken
      (fun t s => if t = "tok" ∧ s = "secret" then Except.ok ⟨some "u1", none, Role.user⟩
        else Except.error JwtError.invalid)
      (fun uid => if uid = "u1" then some ⟨"u1", "e@x", Role.user, some true, some true⟩
        else none)
      (some "secret") false [] [] ⟨some "Bearer tok", none, "1.2.3.4"⟩ 0 false).1
      = AuthOutcome.genericAuthError ∧
    statusOf AuthOutcome.genericAuthError = 401 ∧
    callsNext AuthOutcome.genericAuthError = false := by
  refine ⟨?_, rfl, rfl⟩
  decide

/-- C8 (amended): the middleware awaits the last-active persistence on the
request path: with all earlier stages passing, the request reaches the
handler exactly when the save succeeds, and a failing save is answered with
the generic 401 (`jwt.verify`'s catch block swallows it), never reaching the
handler. -/
theorem last_active_save_on_request_path
    (verify : String → String → Except JwtError Payload)
    (findById : String → Option User)
    (secret : String) (requireEmailVerification : Bool)
    (blacklist : List String) (attempts : AttemptStore)
    (req : Request) (now : Nat)
    (token : String) (payload : Payload) (userId : String) (user : User)
    (hnb : (isIPBlocked attempts req.ip now).1 = false)
    (hextract : extractToken req.authHeader req.cookieToken = some token)
    (hbl : token ∉ blacklist)
    (hv : verify token secret = Except.ok payload)
    (hid : payload.resolvedUserId = some userId)
    (hu : findById userId = some user)
    (hia : user.isActive ≠ some false)
    (hev : ¬ (user.emailVerified = some false ∧ requireEmailVerification)) :
    (authenticateToken verify findById (some secret) requireEmailVerification
        blacklist attempts req now false).1 = AuthOutcome.genericAuthError ∧
    (authenticateToken verify findById (some secret) requireEmailVerification
        blacklist attempts req now true).1 = AuthOutcome.success user token := by
  constructor <;>
  · simp only [authenticateToken, hnb, hextract]
    simp [hbl, validateJWTSecret, hv, hid, hu, hia, hev]

/-- Witness for `last_active_save_on_request_path` at a concrete request. -/
theorem last_active_save_on_request_path_witness :
    (authenticateToken
      (fun t s => if t = "tok" ∧ s = "secret" then Except.ok ⟨some "u1", none, Role.user⟩
        else Except.error JwtError.invalid)
      (fun uid => if uid = "u1" then some ⟨"u1", "e@x", Role.user, some true, some true⟩
        else none)
      (some "secret") false [] [] ⟨some "Bearer tok", none, "1.2.3.4"⟩ 0 true).1
      = AuthOutcome.success ⟨"u1", "e@x", Role.user, some true, some true⟩ "tok" :=
  (last_active_save_on_request_path
    (fun t s => if t = "tok" ∧ s = "secret" then Except.ok ⟨some "u1", none, Role.user⟩
      else Except.error JwtError.invalid)
    (fun uid => if uid = "u1" then some ⟨"u1", "e@x", Role.user, some true, some true⟩
      else none)
    "secret" false [] [] ⟨some "Bearer tok", none, "1.2.3.4"⟩ 0
    "tok" ⟨some "u1", none, Role.user⟩ "u1" ⟨"u1", "e@x", Role.user, some true, some true⟩
    (by decide) (by decide) (by decide) (by decide) (by decide) (by decide) (by decide)
    (by decide)).2

/-! ### C10 — the optional-authentication middleware -/

/-- C10: `optionalUser` writes no response on any input — every control path
of the source ends in `next()` — and when a non-blacklisted token verifies
and resolves to an identity it attaches that identity with no `isActive` or
`emailVerified` check: a request bearing a valid, non-blacklisted token of a
deactivated account proceeds with that identity attached. -/
theorem optionalUser_never_blocks
    (verify : String → String → Except JwtError Payload)
    (findById : String → Option User)
    (envSecret : Option String) (blacklist : List String) (req : Request) :
    (optionalUser verify findById envSecret blacklist req).response = none ∧
    (∀ (token secret : String) (payload : Payload) (userId : String) (u : User),
      extractToken req.authHeader req.cookieToken = some token →
      token ∉ blacklist →
      envSecret = some secret →
      verify token secret = Except.ok payload →
      payload.resolvedUserId = some userId →
      findById userId = some u →
      u.isActive = some false →
      (optionalUser verify findById envSecret blacklist req).reqUser = some u) := by
  constructor
  · unfold optionalUser
    (repeat' split) <;> rfl
  · intro token secret payload userId u he hb henv hv hid hu _
    subst henv
    simp only [optionalUser, he]
    simp [hb, validateJWTSecret, hv, hid, hu]

/-- Witness for `optionalUser_never_blocks`: a deactivated account's valid
token is attached and the request proceeds. -/
theorem optionalUser_never_blocks_witness :
    (optionalUser
      (fun t s => if t = "tok" ∧ s = "secret" then Except.ok ⟨some "u1", none, Role.user⟩
        else Except.error JwtError.invalid)
      (fun uid => if uid = "u1" then some ⟨"u1", "e@x", Role.user, some false, some false⟩
        else none)
      (some "secret") [] ⟨some "Bearer tok", none, "1.2.3.4"⟩).reqUser
      = some ⟨"u1", "e@x", Role.user, some false, some false⟩ :=
  (optionalUser_never_blocks
    (fun t s => if t = "tok" ∧ s = "secret" then Except.ok ⟨some "u1", none, Role.user⟩
      else Except.error JwtError.invalid)
    (fun uid => if uid = "u1" then some ⟨"u1", "e@x", Role.user, some false, some false⟩
      else none)
    (some "secret") [] ⟨some "Bearer tok", none, "1.2.3.4"⟩).2
    "tok" "secret" ⟨some "u1", none, Role.user⟩ "u1"
    ⟨"u1", "e@x", Role.user, some false, some false⟩
    (by decide) (by decide) rfl (by decide) (by decide) (by decide) (by decide)

end OliveGardens
